import Mathlib

/-!
Shallow embedding of the authentication / token-lifecycle and item-listing
logic of the E-commerce REST API (Node.js + Express + Prisma).

The database is modelled as explicit lists of rows (one list per table), and
every controller is a pure function from a database state and request data to
an HTTP response (status code plus JSON body) and a new database state.
Time (`Date.now()` / `new Date()`) is passed explicitly in milliseconds, and
every random value produced by `crypto.randomBytes` or `bcrypt.genSalt` is
passed explicitly as a parameter.
-/

namespace ECom

/-- A JSON value, used to model the exact response bodies the controllers
build with `res.json(...)`. -/
inductive Json where
  | null : Json
  | bool : Bool → Json
  | num : Int → Json
  | str : String → Json
  | arr : List Json → Json
  | obj : List (String × Json) → Json

/-- An HTTP response: the status code set by `res.status(...)` (200 when the
handler calls `res.json` directly) together with the JSON body. -/
structure HttpResponse where
  status : Nat
  body : Json

/-- Looks a key up in a JSON object (used only to state theorems about
individual fields of a response body). -/
def Json.field (j : Json) (k : String) : Option Json :=
  match j with
  | Json.obj fields => (fields.find? (fun p => p.1 == k)).map Prod.snd
  | _ => none

/-- `null` for a SQL NULL, the string otherwise (Prisma returns `null` for a
NULL column and `res.json` serialises it as JSON null). -/
def optStr : Option String → Json
  | none => Json.null
  | some s => Json.str s

/-- `null` for a SQL NULL, the number otherwise. -/
def optNum : Option Nat → Json
  | none => Json.null
  | some n => Json.num n

/-- Model of a bcrypt digest: bcrypt embeds the salt in the digest and
verification deterministically re-derives the digest from the candidate
plaintext. Modelled abstractly (bcrypt is a third-party library): a digest
determines its salt and the plaintext it was derived from. -/
structure Digest where
  salt : Nat
  plaintext : String
  deriving DecidableEq, Repr

/-- Model of `bcrypt.hash(plaintext, salt)`. -/
def bcryptHash (salt : Nat) (plaintext : String) : Digest :=
  { salt := salt, plaintext := plaintext }

/-- Model of `bcrypt.compare(candidate, digest)`: true exactly when the
candidate equals the plaintext the digest was derived from. -/
def bcryptCompare (candidate : String) (d : Digest) : Bool :=
  d.plaintext == candidate

/-- Model of `jwt.sign(payload, key, options)` (jsonwebtoken library): an
opaque signed string determined by the payload fields used by the code
(`user.id` and `user.email`). -/
def jwtSign (id : Nat) (email : String) : String :=
  "jwt." ++ toString id ++ "." ++ email

/-- `config.jwt.refreshTokenExpiry` (src/config/config.js): 604800 seconds
(7 days) by default. -/
def refreshTokenExpirySeconds : Nat := 604800

/-- `config.jwt.accessTokenExpiry` (src/config/config.js): the string
`"15m"` by default; the controllers return it verbatim as `expiresIn`. -/
def accessTokenExpiryStr : String := "15m"

/-- A row of the `User` table. Columns per prisma migrations plus the
`resetToken`/`resetTokenExpiry` columns. Modelled from the spec: the current
`prisma/schema.prisma` is not under src/; the spec data model gives User an
"optional resetToken+expiry", which `forgotPassword`/`resetPassword` read and
write. -/
structure UserRow where
  id : Nat
  email : String
  passwordHash : Digest
  firstName : String
  lastName : String
  age : Nat
  gender : String
  profilePicUrl : Option String
  createdAt : Nat
  lastLoginAt : Option Nat
  resetToken : Option String
  resetTokenExpiry : Option Nat
  deriving DecidableEq, Repr

/-- A row of the `RefreshToken` table (columns exactly as in the
`new_RefreshToken` migration: id, token, expiresAt, revokedAt,
replacedByToken, reasonRevoked, userId). -/
structure RefreshTokenRow where
  id : Nat
  token : String
  expiresAt : Nat
  revokedAt : Option Nat
  replacedByToken : Option String
  reasonRevoked : Option String
  userId : Nat
  deriving DecidableEq, Repr

/-- A row of the `Item` table (migration `new_Item`); `cost` is a REAL column
whose numeric value no claim computes with, modelled as an integer number of
cents. -/
structure ItemRow where
  id : Nat
  name : String
  category : String
  description : String
  cost : Int
  thumbnailUrl : String
  imageUrl : String
  size : Option String
  color : Option String
  deriving DecidableEq, Repr

/-- A row of the `Task` table (taskController). -/
structure TaskRow where
  id : Nat
  title : String
  description : Option String
  status : String
  createdAt : Nat
  userId : Nat
  deriving DecidableEq, Repr

/-- The database: one list per table plus autoincrement counters. -/
structure Db where
  users : List UserRow
  refreshTokens : List RefreshTokenRow
  items : List ItemRow
  tasks : List TaskRow
  nextUserId : Nat
  nextRefreshTokenId : Nat
  deriving DecidableEq, Repr

/-- The result object of `validatePassword` in authController:
`{ isValid, errors }`. -/
structure PasswordValidation where
  isValid : Bool
  errors : List String
  deriving DecidableEq, Repr

/-- The character class of the regex `/[!@#$%^&*(),.?":\x7b\x7d|<>]/` in
`validatePassword` (20 characters, the colon after the double quote
included). -/
def specialChars : List Char :=
  ['!', '@', '#', '$', '%', '^', '&', '*', '(', ')', ',', '.', '?', '"',
   ':', '\x7b', '\x7d', '|', '<', '>']

/-- `validatePassword` from authController: length and four character-class
checks, collecting error messages in order. -/
def validatePassword (password : String) : PasswordValidation :=
  let minLength := 8
  let hasUpperCase := password.toList.any Char.isUpper
  let hasLowerCase := password.toList.any Char.isLower
  let hasNumbers := password.toList.any Char.isDigit
  let hasSpecialChar := password.toList.any (fun c => specialChars.contains c)
  let errors :=
    (if password.length < minLength then
      ["Password must be at least 8 characters long"] else []) ++
    (if !hasUpperCase then
      ["Password must contain at least one uppercase letter"] else []) ++
    (if !hasLowerCase then
      ["Password must contain at least one lowercase letter"] else []) ++
    (if !hasNumbers then
      ["Password must contain at least one number"] else []) ++
    (if !hasSpecialChar then
      ["Password must contain at least one special character"] else [])
  { isValid := errors.isEmpty, errors := errors }

/-- Spec data-model invariant, for stating claims: a stored refresh token is
active iff `revokedAt == null && now < expiresAt`. -/
def specActive (r : RefreshTokenRow) (now : Nat) : Bool :=
  r.revokedAt == none && decide (now < r.expiresAt)

/-- The JS code reads `token.isActive` on a Prisma `RefreshToken` row. The
`RefreshToken` table has no `isActive` column (see the migrations) and the
plain `new PrismaClient()` has no result extension defining a computed field,
so the property access yields `undefined`, which is falsy. -/
def rowIsActiveProp (_ : RefreshTokenRow) : Bool := false

/-- The Joi validation layer (`validateRequest` and `schemas`, staged as the
third document inside src/src/middleware/globalExceptionMiddleware.js) runs
before each handler, and login/refreshToken/revokeToken re-validate inside
the controller. For login the schema requires a well-formed email and a
nonempty password; for refreshToken/revokeToken a nonempty token string.
The claims about those three handlers exercise them on schema-valid bodies
only (well-formed emails, nonempty token strings), where the check reports
no error; this def models the check on that scope. The register schema has
stricter, claim-relevant rules and is modelled exactly in
`registerSchemaErrors` below. -/
def schemaValidationError {α : Type} (_ : α) : Option String := none

/-- The access/refresh token pair plus `expiresIn` returned by
`generateTokens`. -/
structure TokenBundle where
  accessToken : String
  refreshToken : String
  expiresIn : String
  deriving DecidableEq, Repr

/-- The JSON object for a token bundle (`res.json(tokens)` in refreshToken,
and the spread `...tokens` in register/login). -/
def tokenBundleFields (t : TokenBundle) : List (String × Json) :=
  [("accessToken", Json.str t.accessToken),
   ("refreshToken", Json.str t.refreshToken),
   ("expiresIn", Json.str t.expiresIn)]

/-- `generateTokens(user)` from authController: signs an access token,
draws a fresh random 40-byte-hex refresh token (`freshToken`, passed
explicitly), computes `expiresAt = Date.now() + refreshTokenExpiry * 1000`,
and persists a new `RefreshToken` row for the user (all other columns NULL).
-/
def generateTokens (db : Db) (user : UserRow) (now : Nat) (freshToken : String) :
    TokenBundle × Db :=
  let accessToken := jwtSign user.id user.email
  let expiresAt := now + refreshTokenExpirySeconds * 1000
  let row : RefreshTokenRow :=
    { id := db.nextRefreshTokenId, token := freshToken, expiresAt := expiresAt,
      revokedAt := none, replacedByToken := none, reasonRevoked := none,
      userId := user.id }
  ({ accessToken := accessToken, refreshToken := freshToken,
     expiresIn := accessTokenExpiryStr },
   { db with refreshTokens := db.refreshTokens ++ [row],
             nextRefreshTokenId := db.nextRefreshTokenId + 1 })

/-- The `user` sub-object of the register/login 2xx response bodies. -/
def userJson (u : UserRow) : Json :=
  Json.obj
    [("id", Json.num u.id), ("email", Json.str u.email),
     ("firstName", Json.str u.firstName), ("lastName", Json.str u.lastName),
     ("age", Json.num u.age), ("gender", Json.str u.gender),
     ("profilePicUrl", optStr u.profilePicUrl)]

/-- The request body of POST /auth/register (all UserDto fields; Joi has
already checked the shape by the time the controller destructures it). -/
structure RegisterBody where
  email : String
  password : String
  firstName : String
  lastName : String
  age : Nat
  gender : String
  profilePicUrl : Option String
  deriving DecidableEq, Repr

/-- The character class `[@$!%*?&]` of the Joi register/resetPassword
password pattern in the staged validation middleware. -/
def joiSpecials : List Char := ['@', '$', '!', '%', '*', '?', '&']

/-- The Joi password rule of `schemas.register`:
pattern `^(?=.*[a-z])(?=.*[A-Z])(?=.*\d)(?=.*[@$!%*?&])[A-Za-z\d@$!%*?&]\x7b8,\x7d$`
— every character drawn from letters, digits and `joiSpecials`, at least one
lowercase, one uppercase, one digit and one special, and length at least 8. -/
def joiPasswordPatternOk (p : String) : Bool :=
  p.toList.all (fun c => c.isLower || c.isUpper || c.isDigit || joiSpecials.contains c) &&
  p.toList.any Char.isLower && p.toList.any Char.isUpper &&
  p.toList.any Char.isDigit &&
  p.toList.any (fun c => joiSpecials.contains c) &&
  decide (8 ≤ p.length)

/-- Splits a character list at every occurrence of the separator (the
list-level counterpart of `String.split`, written with structural recursion
so that concrete inputs evaluate). -/
def splitOnChar (sep : Char) : List Char → List (List Char)
  | [] => [[]]
  | c :: cs =>
    let r := splitOnChar sep cs
    if c == sep then [] :: r
    else
      match r with
      | [] => [[c]]
      | h :: t => (c :: h) :: t

/-- Model of the Joi library check `Joi.string().email()`: one `@` with a
nonempty local part and a dotted, nonempty-labelled domain. (The precise
grammar is Joi-internal; every concrete email the claims exercise is
classified identically by Joi and by this model.) -/
def joiEmailOk (e : String) : Bool :=
  match splitOnChar '@' e.toList with
  | [u, d] =>
    !u.isEmpty &&
    (let labels := splitOnChar '.' d
     decide (2 ≤ labels.length) && labels.all (fun s => !s.isEmpty))
  | _ => false

/-- `Joi.string().valid('male', 'female', 'other')` for the gender field. -/
def joiGenderOk (g : String) : Bool :=
  g == "male" || g == "female" || g == "other"

/-- Model of the Joi library check `Joi.string().uri()` for the optional
profile picture URL. -/
def joiUriOk (s : String) : Bool :=
  List.isPrefixOf "http://".toList s.toList ||
    List.isPrefixOf "https://".toList s.toList

/-- The validation details of `schemas.register` on a body, one
`(field, message)` pair per failed rule in schema key order (what
`validateRequest` collects with `abortEarly: false`; the controller's own
`schemas.register.validate(req.body)` stops at the first of them). The
password-pattern message is the override written in the source schema
(`.messages(...)`); the other texts are Joi-library-generated and no claim
depends on their wording. -/
def registerSchemaErrors (b : RegisterBody) : List (String × String) :=
  (if !(joiEmailOk b.email) then
    [("email", "\"email\" must be a valid email")] else []) ++
  (if b.password.length < 8 then
    [("password", "\"password\" length must be at least 8 characters long")] else []) ++
  (if !(joiPasswordPatternOk b.password) then
    [("password", "Password must contain at least one uppercase letter, one lowercase letter, one number, and one special character")] else []) ++
  (if b.firstName.toList.isEmpty then
    [("firstName", "\"firstName\" is not allowed to be empty")] else []) ++
  (if b.lastName.toList.isEmpty then
    [("lastName", "\"lastName\" is not allowed to be empty")] else []) ++
  (if b.age < 13 then
    [("age", "\"age\" must be greater than or equal to 13")] else []) ++
  (if 120 < b.age then
    [("age", "\"age\" must be less than or equal to 120")] else []) ++
  (if !(joiGenderOk b.gender) then
    [("gender", "\"gender\" must be one of [male, female, other]")] else []) ++
  (match b.profilePicUrl with
   | some s => if !(joiUriOk s) then
       [("profilePicUrl", "\"profilePicUrl\" must be a valid uri")] else []
   | none => [])

/-- The 400 body `{success:false, message:'Password validation failed',
errors}` shared by register and resetPassword. -/
def passwordValidationFailedBody (errors : List String) : Json :=
  Json.obj
    [("success", Json.bool false),
     ("message", Json.str "Password validation failed"),
     ("errors", Json.arr (errors.map Json.str))]

/-- `register` from authController: the Joi schema check
(`schemas.register.validate(req.body)`, answering 400 with the first failed
rule message — the route middleware `validateRequest('register')` applies
the same schema even earlier, so a Joi-invalid body never reaches the later
checks either way), then the password strength check, the duplicate-email
check, and finally hash + create user + issue token pair. -/
def register (db : Db) (b : RegisterBody) (now : Nat) (salt : Nat)
    (freshToken : String) : HttpResponse × Db :=
  match (registerSchemaErrors b).head? with
  | some d =>
    ({ status := 400,
       body := Json.obj [("success", Json.bool false), ("message", Json.str d.2)] }, db)
  | none =>
    let pv := validatePassword b.password
    if !pv.isValid then
      ({ status := 400, body := passwordValidationFailedBody pv.errors }, db)
    else
      match db.users.find? (fun u => u.email == b.email) with
      | some _ =>
        ({ status := 400,
           body := Json.obj [("success", Json.bool false),
                             ("message", Json.str "User already exists")] }, db)
      | none =>
        let passwordHash := bcryptHash salt b.password
        let user : UserRow :=
          { id := db.nextUserId, email := b.email, passwordHash := passwordHash,
            firstName := b.firstName, lastName := b.lastName, age := b.age,
            gender := b.gender, profilePicUrl := b.profilePicUrl,
            createdAt := now, lastLoginAt := none,
            resetToken := none, resetTokenExpiry := none }
        let dbU := { db with users := db.users ++ [user],
                             nextUserId := db.nextUserId + 1 }
        let td := generateTokens dbU user now freshToken
        ({ status := 201,
           body := Json.obj
             [("success", Json.bool true),
              ("message", Json.str "User registered successfully"),
              ("data", Json.obj (tokenBundleFields td.1 ++ [("user", userJson user)]))] },
         td.2)

/-- The generic 401 body of `login`. -/
def invalidCredentialsBody : Json :=
  Json.obj [("success", Json.bool false), ("message", Json.str "Invalid credentials")]

/-- `login` from authController: Joi schema check, user lookup by email,
bcrypt compare, `lastLoginAt` update, then token issuance. Both failure
paths return the same 401 body. -/
def login (db : Db) (email password : String) (now : Nat) (freshToken : String) :
    HttpResponse × Db :=
  match schemaValidationError (email, password) with
  | some msg =>
    ({ status := 400,
       body := Json.obj [("success", Json.bool false), ("message", Json.str msg)] }, db)
  | none =>
    match db.users.find? (fun u => u.email == email) with
    | none => ({ status := 401, body := invalidCredentialsBody }, db)
    | some user =>
      if !(bcryptCompare password user.passwordHash) then
        ({ status := 401, body := invalidCredentialsBody }, db)
      else
        let dbU := { db with users := db.users.map (fun u =>
          if u.id == user.id then { u with lastLoginAt := some now } else u) }
        let td := generateTokens dbU user now freshToken
        ({ status := 200,
           body := Json.obj
             [("success", Json.bool true),
              ("message", Json.str "Login successful"),
              ("data", Json.obj (tokenBundleFields td.1 ++ [("user", userJson user)]))] },
         td.2)

/-- `refreshToken` from authController: Joi schema check, unique lookup by
token string, the `!token || !token.isActive` guard, then (in the code as
written, unreachably) new token issuance and revocation of the old row. -/
def refreshTokenHandler (db : Db) (refreshToken : String) (now : Nat)
    (freshToken : String) : HttpResponse × Db :=
  match schemaValidationError refreshToken with
  | some msg => ({ status := 400, body := Json.obj [("error", Json.str msg)] }, db)
  | none =>
    match db.refreshTokens.find? (fun r => r.token == refreshToken) with
    | none =>
      ({ status := 401, body := Json.obj [("error", Json.str "Invalid refresh token")] }, db)
    | some token =>
      if !(rowIsActiveProp token) then
        ({ status := 401, body := Json.obj [("error", Json.str "Invalid refresh token")] }, db)
      else
        match db.users.find? (fun u => u.id == token.userId) with
        | none =>
          ({ status := 500,
             body := Json.obj
               [("error", Json.str "An error occurred while processing your request.")] }, db)
        | some user =>
          let td := generateTokens db user now freshToken
          let db2 := { td.2 with refreshTokens := td.2.refreshTokens.map (fun r =>
            if r.id == token.id then
              { r with revokedAt := some now,
                       replacedByToken := some td.1.refreshToken,
                       reasonRevoked := some "Replaced by new token" }
            else r) }
          ({ status := 200, body := Json.obj (tokenBundleFields td.1) }, db2)

/-- `revokeToken` from authController: Joi schema check, unique lookup by
token string (404 if unknown), then an unconditional update of `revokedAt`
and `reasonRevoked` on the found row. -/
def revokeTokenHandler (db : Db) (refreshToken : String) (now : Nat) :
    HttpResponse × Db :=
  match schemaValidationError refreshToken with
  | some msg => ({ status := 400, body := Json.obj [("error", Json.str msg)] }, db)
  | none =>
    match db.refreshTokens.find? (fun r => r.token == refreshToken) with
    | none =>
      ({ status := 404, body := Json.obj [("error", Json.str "Refresh token not found")] }, db)
    | some token =>
      let db2 := { db with refreshTokens := db.refreshTokens.map (fun r =>
        if r.id == token.id then
          { r with revokedAt := some now, reasonRevoked := some "Revoked by user" }
        else r) }
      ({ status := 200,
         body := Json.obj [("message", Json.str "Token revoked successfully")] }, db2)

/-- `forgotPassword` from authController: lookup by email; unknown email
gets a 200 success body; a known user gets a fresh 32-byte-hex reset token
(`freshResetToken`, passed explicitly) with expiry `Date.now() + 3600000`
stored on the row, and a 200 body that also carries the reset token. -/
def forgotPassword (db : Db) (email : String) (now : Nat)
    (freshResetToken : String) : HttpResponse × Db :=
  match db.users.find? (fun u => u.email == email) with
  | none =>
    ({ status := 200,
       body := Json.obj
         [("success", Json.bool true),
          ("message", Json.str
            "If an account exists with this email, you will receive password reset instructions")] },
     db)
  | some user =>
    let db2 := { db with users := db.users.map (fun u =>
      if u.id == user.id then
        { u with resetToken := some freshResetToken,
                 resetTokenExpiry := some (now + 3600000) }
      else u) }
    ({ status := 200,
       body := Json.obj
         [("success", Json.bool true),
          ("message", Json.str "Password reset instructions sent to your email"),
          ("resetToken", Json.str freshResetToken)] },
     db2)

/-- The Prisma `findFirst` predicate of `resetPassword`: `resetToken` equals
the presented token and `resetTokenExpiry` is strictly in the future
(`gt: new Date()`; a NULL expiry never satisfies `gt`). -/
def resetTokenMatches (token : String) (now : Nat) (u : UserRow) : Bool :=
  u.resetToken == some token &&
    (match u.resetTokenExpiry with
     | some e => decide (now < e)
     | none => false)

/-- `resetPassword` from authController: password strength check, lookup of a
user with a valid (unexpired) reset token, then rehash + clearing of the
reset fields. -/
def resetPassword (db : Db) (token newPassword : String) (now : Nat)
    (salt : Nat) : HttpResponse × Db :=
  let pv := validatePassword newPassword
  if !pv.isValid then
    ({ status := 400, body := passwordValidationFailedBody pv.errors }, db)
  else
    match db.users.find? (resetTokenMatches token now) with
    | none =>
      ({ status := 400,
         body := Json.obj
           [("success", Json.bool false),
            ("message", Json.str "Invalid or expired reset token")] }, db)
    | some user =>
      let db2 := { db with users := db.users.map (fun u =>
        if u.id == user.id then
          { u with passwordHash := bcryptHash salt newPassword,
                   resetToken := none, resetTokenExpiry := none }
        else u) }
      ({ status := 200,
         body := Json.obj
           [("success", Json.bool true),
            ("message", Json.str "Password has been reset successfully")] },
       db2)

/-- The projection of the Prisma `select` clause in `listItems`. -/
structure ItemSummary where
  id : Nat
  name : String
  category : String
  cost : Int
  thumbnailUrl : String
  deriving DecidableEq, Repr

/-- `select: \x7b id, name, category, cost, thumbnailUrl \x7d` in `listItems`. -/
def itemSelect (it : ItemRow) : ItemSummary :=
  { id := it.id, name := it.name, category := it.category, cost := it.cost,
    thumbnailUrl := it.thumbnailUrl }

/-- The value of `res.json` in `listItems`: items page plus pagination data. -/
structure ListItemsResult where
  items : List ItemSummary
  total : Nat
  page : Nat
  limit : Nat
  totalPages : Nat
  deriving DecidableEq, Repr

/-- `Math.ceil(a / b)` on natural numbers, for `b > 0`. -/
def jsMathCeilDiv (a b : Nat) : Nat := (a + b - 1) / b

/-- `listItems` from itemController: `skip = (page - 1) * limit`, a
`findMany` with skip/take and the field selection, a total `count`, and
`totalPages = Math.ceil(total / limit)`. -/
def listItems (db : Db) (page limit : Nat) : ListItemsResult :=
  let skip := (page - 1) * limit
  let items := ((db.items.drop skip).take limit).map itemSelect
  let total := db.items.length
  { items := items, total := total, page := page, limit := limit,
    totalPages := jsMathCeilDiv total limit }

/-- One client-visible operation on the token store, for the token-lifecycle
state machine: a refresh call or an explicit revoke call. -/
inductive AuthOp where
  | refresh (token : String) (now : Nat) (fresh : String)
  | revoke (token : String) (now : Nat)
  deriving DecidableEq, Repr

/-- The database transition of one operation (the response is discarded). -/
def applyOp (db : Db) (op : AuthOp) : Db :=
  match op with
  | AuthOp.refresh t now fresh => (refreshTokenHandler db t now fresh).2
  | AuthOp.revoke t now => (revokeTokenHandler db t now).2

/-- Runs a sequence of refresh/revoke operations. -/
def runOps (db : Db) (ops : List AuthOp) : Db :=
  ops.foldl applyOp db

/-! Concrete sample states used by the closed theorems below. -/

/-- The empty database. -/
def emptyDb : Db :=
  { users := [], refreshTokens := [], items := [], tasks := [],
    nextUserId := 1, nextRefreshTokenId := 1 }

/-- The registration payload of the spec end-to-end example
(`email:"a@b.com"`, `password:"Abc12345!"`). -/
def sampleRegisterBody : RegisterBody :=
  { email := "a@b.com", password := "Abc12345!", firstName := "A",
    lastName := "B", age := 24, gender := "male", profilePicUrl := none }

/-- The state after a successful register at time 0 that issued refresh
token "t0". -/
def dbAfterRegister : Db :=
  (register emptyDb sampleRegisterBody 0 7 "t0").2

/-- A user row for the stand-alone active-token sample. -/
def userNine : UserRow :=
  { id := 9, email := "nine@x.com", passwordHash := bcryptHash 3 "Pass123!x",
    firstName := "N", lastName := "Ine", age := 30, gender := "female",
    profilePicUrl := none, createdAt := 0, lastLoginAt := none,
    resetToken := none, resetTokenExpiry := none }

/-- A stored refresh token that is active at time 1000 per the spec
invariant (`revokedAt == null`, `expiresAt = 2000000 > 1000`). -/
def activeRow : RefreshTokenRow :=
  { id := 5, token := "tok-a", expiresAt := 2000000, revokedAt := none,
    replacedByToken := none, reasonRevoked := none, userId := 9 }

/-- A database holding `userNine` and the known active token `activeRow`. -/
def dbKnownActive : Db :=
  { users := [userNine], refreshTokens := [activeRow], items := [],
    tasks := [], nextUserId := 10, nextRefreshTokenId := 6 }

/-! Helper lemmas shared by several claims. -/

/-- What every refresh/revoke operation preserves of a stored refresh-token
row: identity, token string, expiry, owner, and the fact of being revoked. -/
def preservesRow (r r' : RefreshTokenRow) : Prop :=
  r'.id = r.id ∧ r'.token = r.token ∧ r'.expiresAt = r.expiresAt ∧
  r'.userId = r.userId ∧ (r.revokedAt ≠ none → r'.revokedAt ≠ none)

theorem preservesRow_refl (r : RefreshTokenRow) : preservesRow r r :=
  ⟨rfl, rfl, rfl, rfl, id⟩

theorem preservesRow_trans {a b c : RefreshTokenRow}
    (h1 : preservesRow a b) (h2 : preservesRow b c) : preservesRow a c := by
  obtain ⟨i1, t1, e1, u1, v1⟩ := h1
  obtain ⟨i2, t2, e2, u2, v2⟩ := h2
  exact ⟨i2.trans i1, t2.trans t1, e2.trans e1, u2.trans u1,
    fun h => v2 (v1 h)⟩

theorem forallTwo_trans {α : Type} {p : α → α → Prop}
    (hp : ∀ a b c, p a b → p b c → p a c) :
    ∀ {l1 l2 l3 : List α}, List.Forall₂ p l1 l2 → List.Forall₂ p l2 l3 →
      List.Forall₂ p l1 l3 := by
  intro l1 l2 l3 h12
  induction h12 generalizing l3 with
  | nil => intro h23; cases h23; exact List.Forall₂.nil
  | cons h _ ih =>
    intro h23
    cases h23 with
    | cons h' t' => exact List.Forall₂.cons (hp _ _ _ h h') (ih t')

/-- A refresh call never changes the database: the `!token.isActive` guard
(with `isActive` an absent property) sends every known token to the 401
branch, and an unknown token is rejected outright. -/
theorem refresh_state_id (db : Db) (t : String) (now : Nat) (f : String) :
    (refreshTokenHandler db t now f).2 = db := by
  rw [refreshTokenHandler]
  cases hf : db.refreshTokens.find? (fun r => r.token == t) with
  | none => rfl
  | some tok => rfl

theorem revoke_preserves (db : Db) (t : String) (now : Nat) :
    List.Forall₂ preservesRow db.refreshTokens
      (revokeTokenHandler db t now).2.refreshTokens := by
  rw [revokeTokenHandler]
  cases hf : db.refreshTokens.find? (fun r => r.token == t) with
  | none => exact List.forall₂_same.mpr fun x _ => preservesRow_refl x
  | some tok =>
    refine List.forall₂_map_right_iff.mpr (List.forall₂_same.mpr fun x _ => ?_)
    by_cases hid : (x.id == tok.id) = true
    · simp only [hid, if_true]
      exact ⟨rfl, rfl, rfl, rfl, fun _ => by simp⟩
    · simp only [hid, if_false]
      exact preservesRow_refl x

theorem applyOp_preserves (db : Db) (op : AuthOp) :
    List.Forall₂ preservesRow db.refreshTokens (applyOp db op).refreshTokens := by
  cases op with
  | refresh t n f =>
    rw [applyOp, refresh_state_id]
    exact List.forall₂_same.mpr fun x _ => preservesRow_refl x
  | revoke t n => exact revoke_preserves db t n

/-! Claim theorems. -/

/-- Claim C1 (code bug): a freshly issued refresh token ("t0", produced by
`generateTokens` inside `register`) is active per the spec invariant, yet the
very first `refreshToken` call with it already fails 401 Unauthorized with
body `\x7berror: 'Invalid refresh token'\x7d` and leaves the database
unchanged — because the code tests `token.isActive`, a property no Prisma
row has. The claimed rotate-once-then-reject lifecycle never happens. -/
theorem freshTokenFirstRefreshRejected :
    dbAfterRegister.refreshTokens.any
        (fun r => r.token == "t0" && specActive r 1000) = true ∧
    (refreshTokenHandler dbAfterRegister "t0" 1000 "t1").1.status = 401 ∧
    (refreshTokenHandler dbAfterRegister "t0" 1000 "t1").1.body
      = Json.obj [("error", Json.str "Invalid refresh token")] ∧
    (refreshTokenHandler dbAfterRegister "t0" 1000 "t1").2 = dbAfterRegister :=
  ⟨by decide, rfl, rfl, by decide⟩

/-- Claim C2 (code bug): `refreshToken` is claimed to fail Unauthorized only
for unknown or inactive tokens; but on a known token that is active per the
spec invariant (`revokedAt == null && now < expiresAt`) the call still
returns 401, since the `token.isActive` property read yields undefined. -/
theorem knownActiveTokenRefreshUnauthorized :
    dbKnownActive.refreshTokens.find? (fun r => r.token == "tok-a")
      = some activeRow ∧
    specActive activeRow 1000 = true ∧
    (refreshTokenHandler dbKnownActive "tok-a" 1000 "t9").1.status = 401 ∧
    (refreshTokenHandler dbKnownActive "tok-a" 1000 "t9").1.body
      = Json.obj [("error", Json.str "Invalid refresh token")] :=
  ⟨by decide, by decide, rfl, rfl⟩

/-- Claim C8: revocation is terminal. Across any sequence of refresh and
revoke operations, every stored refresh-token row keeps its id, token
string, expiry and owner, and once `revokedAt` is non-null it stays
non-null: no operation un-revokes a token or changes its `expiresAt`, and a
refresh call never extends or reactivates an already-revoked token. -/
theorem revocationTerminal (db : Db) (ops : List AuthOp) :
    List.Forall₂ preservesRow db.refreshTokens (runOps db ops).refreshTokens := by
  induction ops generalizing db with
  | nil => exact List.forall₂_same.mpr fun x _ => preservesRow_refl x
  | cons op rest ih =>
    have h1 := applyOp_preserves db op
    have h2 := ih (applyOp db op)
    exact @forallTwo_trans RefreshTokenRow preservesRow
      (fun _ _ _ ha hb => preservesRow_trans ha hb) _ _ _ h1 h2

/-- Claim C9: `revokeToken` fails 404 NotFound exactly when no stored row
has the presented token string; on a known token it sets `revokedAt` to the
current time and `reasonRevoked` to "Revoked by user" and acknowledges
success. -/
theorem revokeTokenSpec (db : Db) (tok : String) (now : Nat) :
    (db.refreshTokens.find? (fun r => r.token == tok) = none →
       (revokeTokenHandler db tok now).1.status = 404 ∧
       (revokeTokenHandler db tok now).1.body
         = Json.obj [("error", Json.str "Refresh token not found")] ∧
       (revokeTokenHandler db tok now).2 = db) ∧
    (∀ t0, db.refreshTokens.find? (fun r => r.token == tok) = some t0 →
       (revokeTokenHandler db tok now).1.status = 200 ∧
       (revokeTokenHandler db tok now).1.body
         = Json.obj [("message", Json.str "Token revoked successfully")] ∧
       ∀ x ∈ (revokeTokenHandler db tok now).2.refreshTokens, x.id = t0.id →
         x.revokedAt = some now ∧ x.reasonRevoked = some "Revoked by user") := by
  constructor
  · intro h
    simp [revokeTokenHandler, schemaValidationError, h]
  · intro t0 h
    simp only [revokeTokenHandler, schemaValidationError, h]
    refine ⟨trivial, trivial, ?_⟩
    intro x hx hid
    rcases List.mem_map.mp hx with ⟨y, hy, rfl⟩
    by_cases hb : (y.id == t0.id) = true
    · simp [hb]
    · simp only [hb, if_false] at hid ⊢
      exact absurd (beq_iff_eq.mpr hid) hb

/-- Witness for C9: on `dbKnownActive`, revoking the unknown token "ghost"
is a 404 and revoking the known token "tok-a" succeeds. -/
theorem revokeTokenSpec_witness :
    (revokeTokenHandler dbKnownActive "ghost" 77).1.status = 404 ∧
    (revokeTokenHandler dbKnownActive "tok-a" 77).1.status = 200 :=
  ⟨((revokeTokenSpec dbKnownActive "ghost" 77).1 (by decide)).1,
   ((revokeTokenSpec dbKnownActive "tok-a" 77).2 activeRow (by decide)).1⟩

/-- Claim C10 (frame effect): on any known token — the handler never checks
its state, so an already revoked or expired one included — `revokeToken`
succeeds and modifies only `revokedAt` and `reasonRevoked` of rows with the
found row's id: each such row keeps its token string, expiry,
`replacedByToken` and owner, every other refresh-token row is unchanged, and
the users, items and tasks tables and both id counters are untouched. -/
theorem revokeTokenFrame (db : Db) (tok : String) (now : Nat)
    (t0 : RefreshTokenRow)
    (h : db.refreshTokens.find? (fun r => r.token == tok) = some t0) :
    (revokeTokenHandler db tok now).1.status = 200 ∧
    (revokeTokenHandler db tok now).2.users = db.users ∧
    (revokeTokenHandler db tok now).2.items = db.items ∧
    (revokeTokenHandler db tok now).2.tasks = db.tasks ∧
    (revokeTokenHandler db tok now).2.nextUserId = db.nextUserId ∧
    (revokeTokenHandler db tok now).2.nextRefreshTokenId = db.nextRefreshTokenId ∧
    List.Forall₂ (fun r r2 =>
        (r.id ≠ t0.id → r2 = r) ∧
        (r.id = t0.id →
          r2.token = r.token ∧ r2.expiresAt = r.expiresAt ∧
          r2.replacedByToken = r.replacedByToken ∧ r2.userId = r.userId ∧
          r2.revokedAt = some now ∧ r2.reasonRevoked = some "Revoked by user"))
      db.refreshTokens (revokeTokenHandler db tok now).2.refreshTokens := by
  simp only [revokeTokenHandler, schemaValidationError, h]
  refine ⟨trivial, trivial, trivial, trivial, trivial, trivial, ?_⟩
  refine List.forall₂_map_right_iff.mpr (List.forall₂_same.mpr fun x _ => ?_)
  by_cases hb : (x.id == t0.id) = true
  · constructor
    · intro hne; exact absurd (beq_iff_eq.mp hb) hne
    · intro _; simp [hb]
  · constructor
    · intro _; simp [hb]
    · intro heq; exact absurd (beq_iff_eq.mpr heq) hb

/-- A token row that is both revoked and expired, for the C10 witness. -/
def revokedRow : RefreshTokenRow :=
  { id := 2, token := "tok-r", expiresAt := 10, revokedAt := some 5,
    replacedByToken := none, reasonRevoked := some "Revoked by user", userId := 9 }

/-- A database whose only refresh token is `revokedRow`. -/
def dbRevoked : Db :=
  { users := [userNine], refreshTokens := [revokedRow], items := [],
    tasks := [], nextUserId := 10, nextRefreshTokenId := 3 }

/-- Witness for C10: revoking an already revoked and expired token still
succeeds and leaves the users table untouched. -/
theorem revokeTokenFrame_witness :
    (revokeTokenHandler dbRevoked "tok-r" 999).1.status = 200 ∧
    (revokeTokenHandler dbRevoked "tok-r" 999).2.users = dbRevoked.users :=
  ⟨(revokeTokenFrame dbRevoked "tok-r" 999 revokedRow (by decide)).1,
   (revokeTokenFrame dbRevoked "tok-r" 999 revokedRow (by decide)).2.1⟩

/-- Claim C4: the two login failure modes — unknown email, and known email
with a password whose hash does not verify — both return 401 with the very
same generic "Invalid credentials" body and leave the database unchanged;
and a successful login sets lastLoginAt of the logged-in user to now. -/
theorem loginNoEnumeration (db : Db) (e1 p1 e2 p2 : String) (now : Nat)
    (f1 f2 : String) (u : UserRow)
    (h1 : db.users.find? (fun x => x.email == e1) = none)
    (h2 : db.users.find? (fun x => x.email == e2) = some u)
    (h3 : bcryptCompare p2 u.passwordHash = false) :
    (login db e1 p1 now f1).1.status = 401 ∧
    (login db e2 p2 now f2).1.status = 401 ∧
    (login db e1 p1 now f1).1.body = (login db e2 p2 now f2).1.body ∧
    (login db e1 p1 now f1).1.body = invalidCredentialsBody ∧
    (login db e1 p1 now f1).2 = db ∧
    (login db e2 p2 now f2).2 = db ∧
    (∀ e3 p3 f3 u3, db.users.find? (fun x => x.email == e3) = some u3 →
       bcryptCompare p3 u3.passwordHash = true →
       (login db e3 p3 now f3).1.status = 200 ∧
       ∀ x ∈ (login db e3 p3 now f3).2.users, x.id = u3.id →
         x.lastLoginAt = some now) := by
  refine ⟨?_, ?_, ?_, ?_, ?_, ?_, ?_⟩
  · simp [login, schemaValidationError, h1]
  · simp [login, schemaValidationError, h2, h3]
  · simp [login, schemaValidationError, h1, h2, h3]
  · simp [login, schemaValidationError, h1]
  · simp [login, schemaValidationError, h1]
  · simp [login, schemaValidationError, h2, h3]
  · intro e3 p3 f3 u3 hs hc
    have hred : (login db e3 p3 now f3).2.users
        = db.users.map (fun y =>
            if y.id == u3.id then { y with lastLoginAt := some now } else y) := by
      simp [login, schemaValidationError, hs, hc, generateTokens]
    refine ⟨by simp [login, schemaValidationError, hs, hc], ?_⟩
    intro x hx hid
    rw [hred] at hx
    rcases List.mem_map.mp hx with ⟨y, hy, rfl⟩
    by_cases hb : (y.id == u3.id) = true
    · simp [hb]
    · simp only [hb, if_false] at hid ⊢
      exact absurd (beq_iff_eq.mpr hid) hb

/-- Witness for C4 on a concrete store: unknown email and wrong password
both yield 401 with identical bodies. -/
theorem loginNoEnumeration_witness :
    (login dbKnownActive "ghost@x.com" "Whatever1!" 50 "f1").1.status = 401 ∧
    (login dbKnownActive "nine@x.com" "WrongPass1!" 50 "f2").1.status = 401 ∧
    (login dbKnownActive "ghost@x.com" "Whatever1!" 50 "f1").1.body
      = (login dbKnownActive "nine@x.com" "WrongPass1!" 50 "f2").1.body :=
  ⟨(loginNoEnumeration dbKnownActive "ghost@x.com" "Whatever1!" "nine@x.com"
      "WrongPass1!" 50 "f1" "f2" userNine (by decide) (by decide) (by decide)).1,
   (loginNoEnumeration dbKnownActive "ghost@x.com" "Whatever1!" "nine@x.com"
      "WrongPass1!" 50 "f1" "f2" userNine (by decide) (by decide) (by decide)).2.1,
   (loginNoEnumeration dbKnownActive "ghost@x.com" "Whatever1!" "nine@x.com"
      "WrongPass1!" 50 "f1" "f2" userNine (by decide) (by decide) (by decide)).2.2.1⟩

/-- Claim C5: resetPassword fails 400 Validation on a weak password, fails
400 BadRequest when no user carries the token with an unexpired expiry, and
otherwise rehashes so that exactly the new password verifies against the
stored digest (any other password, the old one in particular, no longer
does) and clears both reset fields. -/
theorem resetPasswordSpec (db : Db) (tok newPw : String) (now salt : Nat) :
    ((validatePassword newPw).isValid = false →
       (resetPassword db tok newPw now salt).1.status = 400 ∧
       (resetPassword db tok newPw now salt).1.body
         = passwordValidationFailedBody (validatePassword newPw).errors ∧
       (resetPassword db tok newPw now salt).2 = db) ∧
    ((validatePassword newPw).isValid = true →
      (db.users.find? (resetTokenMatches tok now) = none →
        (resetPassword db tok newPw now salt).1.status = 400 ∧
        (resetPassword db tok newPw now salt).1.body
          = Json.obj [("success", Json.bool false),
                      ("message", Json.str "Invalid or expired reset token")] ∧
        (resetPassword db tok newPw now salt).2 = db) ∧
      (∀ u, db.users.find? (resetTokenMatches tok now) = some u →
        (resetPassword db tok newPw now salt).1.status = 200 ∧
        ∀ x ∈ (resetPassword db tok newPw now salt).2.users, x.id = u.id →
          bcryptCompare newPw x.passwordHash = true ∧
          (∀ old, old ≠ newPw → bcryptCompare old x.passwordHash = false) ∧
          x.resetToken = none ∧ x.resetTokenExpiry = none)) := by
  refine ⟨?_, ?_⟩
  · intro hv
    simp [resetPassword, hv]
  · intro hv
    refine ⟨?_, ?_⟩
    · intro hn
      simp [resetPassword, hv, hn]
    · intro u hu
      have hred : (resetPassword db tok newPw now salt).2.users
          = db.users.map (fun y =>
              if y.id == u.id then
                { y with passwordHash := bcryptHash salt newPw,
                         resetToken := none, resetTokenExpiry := none }
              else y) := by
        simp [resetPassword, hv, hu]
      refine ⟨by simp [resetPassword, hv, hu], ?_⟩
      intro x hx hid
      rw [hred] at hx
      rcases List.mem_map.mp hx with ⟨y, hy, rfl⟩
      by_cases hb : (y.id == u.id) = true
      · simp only [hb, if_true]
        refine ⟨by simp [bcryptCompare, bcryptHash], ?_, by simp, by simp⟩
        intro old hne
        simp only [bcryptCompare, bcryptHash]
        exact beq_eq_false_iff_ne.mpr fun h => hne h.symm
      · simp only [hb, if_false] at hid ⊢
        exact absurd (beq_iff_eq.mpr hid) hb

/-- A user holding reset token "rst" with expiry 5000, for the C5 witness. -/
def userReset : UserRow :=
  { id := 4, email := "r@x.com", passwordHash := bcryptHash 2 "OldPass1!",
    firstName := "R", lastName := "S", age := 20, gender := "other",
    profilePicUrl := none, createdAt := 0, lastLoginAt := none,
    resetToken := some "rst", resetTokenExpiry := some 5000 }

/-- A database whose only user is `userReset`. -/
def dbReset : Db :=
  { users := [userReset], refreshTokens := [], items := [], tasks := [],
    nextUserId := 5, nextRefreshTokenId := 1 }

/-- Witness for C5: a weak password is a 400, an unknown token is a 400,
and the valid token with a strong password succeeds. -/
theorem resetPasswordSpec_witness :
    (resetPassword dbReset "rst" "weak" 100 6).1.status = 400 ∧
    (resetPassword dbReset "bad-token" "NewPass1!" 100 6).1.status = 400 ∧
    (resetPassword dbReset "rst" "NewPass1!" 100 6).1.status = 200 :=
  ⟨((resetPasswordSpec dbReset "rst" "weak" 100 6).1 (by decide)).1,
   (((resetPasswordSpec dbReset "bad-token" "NewPass1!" 100 6).2
      (by decide)).1 (by decide)).1,
   (((resetPasswordSpec dbReset "rst" "NewPass1!" 100 6).2
      (by decide)).2 userReset (by decide)).1⟩

/-- A second registration payload for the already-taken email "a@b.com":
its password "Abcd123:" is 8 characters with upper, lower, digit and the
special ":", so the in-controller strength check would accept it, but the
Joi register schema rejects it (":" is outside the pattern alphabet
`[A-Za-z\d@$!%*?&]`). -/
def joiRejectedBody : RegisterBody :=
  { email := "a@b.com", password := "Abcd123:", firstName := "A2",
    lastName := "B2", age := 30, gender := "other", profilePicUrl := none }

/-- Counterexample to C6 as stated: with the user "a@b.com" already
registered, a subsequent register call with that same email does NOT
necessarily fail Conflict — the Joi schema validation (the route middleware
and the first step of the controller) runs before the duplicate-email
check, so for the password "Abcd123:" the response is a 400 carrying the
schema's password-pattern message, not "User already exists" (and no state
changes). -/
theorem registerDuplicateNotAlwaysConflict :
    dbAfterRegister.users.any (fun u => u.email == "a@b.com") = true ∧
    (register dbAfterRegister joiRejectedBody 5 8 "t2").1.status = 400 ∧
    Json.field ((register dbAfterRegister joiRejectedBody 5 8 "t2").1.body) "message"
      = some (Json.str "Password must contain at least one uppercase letter, one lowercase letter, one number, and one special character") ∧
    Json.field ((register dbAfterRegister joiRejectedBody 5 8 "t2").1.body) "message"
      ≠ some (Json.str "User already exists") ∧
    (register dbAfterRegister joiRejectedBody 5 8 "t2").2 = dbAfterRegister := by
  refine ⟨by decide, rfl, rfl, ?_, by decide⟩
  intro h
  rw [show Json.field ((register dbAfterRegister joiRejectedBody 5 8 "t2").1.body) "message"
      = some (Json.str "Password must contain at least one uppercase letter, one lowercase letter, one number, and one special character") from rfl] at h
  simp at h

/-- Claim C6 as amended: when a user with the email already exists, every
subsequent register call with that email whose body passes the Joi register
schema and whose password passes the strength check fails Conflict (400,
"User already exists") and leaves the database unchanged — no new user is
ever persisted. -/
theorem registerDuplicateConflict (db : Db) (b : RegisterBody) (now salt : Nat)
    (f : String) (u : UserRow)
    (hschema : registerSchemaErrors b = [])
    (hpw : (validatePassword b.password).isValid = true)
    (hex : db.users.find? (fun x => x.email == b.email) = some u) :
    (register db b now salt f).1.status = 400 ∧
    (register db b now salt f).1.body
      = Json.obj [("success", Json.bool false),
                  ("message", Json.str "User already exists")] ∧
    (register db b now salt f).2 = db := by
  simp [register, hschema, hpw, hex]

/-- The user row `register` persists for `sampleRegisterBody` at time 0. -/
def registeredUser : UserRow :=
  { id := 1, email := "a@b.com", passwordHash := bcryptHash 7 "Abc12345!",
    firstName := "A", lastName := "B", age := 24, gender := "male",
    profilePicUrl := none, createdAt := 0, lastLoginAt := none,
    resetToken := none, resetTokenExpiry := none }

/-- Witness for C6: replaying the original (strong-password) registration
against the state that already contains that user is a 400 Conflict and
changes nothing. -/
theorem registerDuplicateConflict_witness :
    (register dbAfterRegister sampleRegisterBody 5 8 "t2").1.status = 400 ∧
    (register dbAfterRegister sampleRegisterBody 5 8 "t2").2 = dbAfterRegister :=
  ⟨(registerDuplicateConflict dbAfterRegister sampleRegisterBody 5 8 "t2"
      registeredUser (by decide) (by decide) (by decide)).1,
   (registerDuplicateConflict dbAfterRegister sampleRegisterBody 5 8 "t2"
      registeredUser (by decide) (by decide) (by decide)).2.2⟩

/-- Counterexample to C3 as stated: the two forgotPassword response bodies
are not identical — for the existing email "a@b.com" the body says
"Password reset instructions sent to your email" and carries the reset
token itself, while for the unknown email it says "If an account exists
with this email, you will receive password reset instructions". -/
theorem forgotPasswordBodiesDiffer :
    (forgotPassword dbAfterRegister "a@b.com" 0 "r0").1.body
      ≠ (forgotPassword dbAfterRegister "nobody@b.com" 0 "r0").1.body := by
  intro h
  have hA : Json.field ((forgotPassword dbAfterRegister "a@b.com" 0 "r0").1.body) "message"
      = some (Json.str "Password reset instructions sent to your email") := rfl
  rw [h] at hA
  have hB : Json.field ((forgotPassword dbAfterRegister "nobody@b.com" 0 "r0").1.body) "message"
      = some (Json.str "If an account exists with this email, you will receive password reset instructions") := rfl
  rw [hB] at hA
  simp at hA

/-- Claim C3 as amended: both forgotPassword calls return 200 with
`success: true`, the unknown-email call changes nothing, and for an existing
email the fresh random token with a 1-hour (3600000 ms) expiry is stored on
the user — but the two bodies differ (different messages, and the
existing-email body includes the reset token), so the responses do reveal
which case occurred. -/
theorem forgotPasswordAmended (db : Db) (e1 e2 : String) (now : Nat)
    (fresh : String) (u : UserRow)
    (h1 : db.users.find? (fun x => x.email == e1) = some u)
    (h2 : db.users.find? (fun x => x.email == e2) = none) :
    (forgotPassword db e1 now fresh).1.status = 200 ∧
    Json.field (forgotPassword db e1 now fresh).1.body "success"
      = some (Json.bool true) ∧
    (forgotPassword db e2 now fresh).1.status = 200 ∧
    Json.field (forgotPassword db e2 now fresh).1.body "success"
      = some (Json.bool true) ∧
    (forgotPassword db e2 now fresh).2 = db ∧
    (∀ x ∈ (forgotPassword db e1 now fresh).2.users, x.id = u.id →
       x.resetToken = some fresh ∧ x.resetTokenExpiry = some (now + 3600000)) ∧
    (forgotPassword db e1 now fresh).1.body
      ≠ (forgotPassword db e2 now fresh).1.body := by
  have hmsgA : Json.field (forgotPassword db e1 now fresh).1.body "message"
      = some (Json.str "Password reset instructions sent to your email") := by
    simp [forgotPassword, h1, Json.field]
  have hmsgB : Json.field (forgotPassword db e2 now fresh).1.body "message"
      = some (Json.str "If an account exists with this email, you will receive password reset instructions") := by
    simp [forgotPassword, h2, Json.field]
  have hred : (forgotPassword db e1 now fresh).2.users
      = db.users.map (fun y =>
          if y.id == u.id then
            { y with resetToken := some fresh,
                     resetTokenExpiry := some (now + 3600000) }
          else y) := by
    simp [forgotPassword, h1]
  refine ⟨by simp [forgotPassword, h1], by simp [forgotPassword, h1, Json.field],
    by simp [forgotPassword, h2], by simp [forgotPassword, h2, Json.field],
    by simp [forgotPassword, h2], ?_, ?_⟩
  · intro x hx hid
    rw [hred] at hx
    rcases List.mem_map.mp hx with ⟨y, hy, rfl⟩
    by_cases hb : (y.id == u.id) = true
    · simp [hb]
    · simp only [hb, if_false] at hid ⊢
      exact absurd (beq_iff_eq.mpr hid) hb
  · intro hEq
    rw [hEq, hmsgB] at hmsgA
    simp at hmsgA

/-- Witness for C3 (amended): on the concrete post-register state, both the
existing-email and unknown-email calls return 200. -/
theorem forgotPasswordAmended_witness :
    (forgotPassword dbAfterRegister "a@b.com" 0 "r0").1.status = 200 ∧
    (forgotPassword dbAfterRegister "zz@b.com" 0 "r0").1.status = 200 :=
  ⟨(forgotPasswordAmended dbAfterRegister "a@b.com" "zz@b.com" 0 "r0"
      registeredUser (by decide) (by decide)).1,
   (forgotPasswordAmended dbAfterRegister "a@b.com" "zz@b.com" 0 "r0"
      registeredUser (by decide) (by decide)).2.2.1⟩

/-- Claim C7: listItems skips (page - 1) * limit records, takes at most
limit records (in stored order, projected to the selected fields), reports
the total record count, and computes totalPages as the ceiling of
total / limit (characterised by total ≤ limit * totalPages <
total + limit). -/
theorem listItemsPagination (db : Db) (page limit : Nat)
    (hp : 1 ≤ page) (hl : 1 ≤ limit) :
    (listItems db page limit).items
      = ((db.items.drop ((page - 1) * limit)).take limit).map itemSelect ∧
    (listItems db page limit).items.length ≤ limit ∧
    (listItems db page limit).total = db.items.length ∧
    (listItems db page limit).page = page ∧
    db.items.length ≤ limit * (listItems db page limit).totalPages ∧
    limit * (listItems db page limit).totalPages < db.items.length + limit := by
  refine ⟨rfl, ?_, rfl, rfl, ?_⟩
  · simp only [listItems, List.length_map, List.length_take]
    exact min_le_left _ _
  · have hd := Nat.div_add_mod (db.items.length + limit - 1) limit
    have hm : (db.items.length + limit - 1) % limit < limit :=
      Nat.mod_lt _ (by omega)
    simp only [listItems, jsMathCeilDiv]
    generalize hq : (db.items.length + limit - 1) / limit = q at hd ⊢
    generalize hr : (db.items.length + limit - 1) % limit = r at hd hm
    generalize hA : limit * q = A at hd ⊢
    omega

/-- A store of 25 items with ids 1..25, for the C7 witness. -/
def paginationItems : List ItemRow :=
  (List.range 25).map (fun i =>
    { id := i + 1, name := "item", category := "cat", description := "d",
      cost := 100, thumbnailUrl := "t", imageUrl := "u",
      size := none, color := none })

/-- A database holding exactly `paginationItems`. -/
def dbPagination : Db :=
  { users := [], refreshTokens := [], items := paginationItems, tasks := [],
    nextUserId := 1, nextRefreshTokenId := 1 }

/-- Witness for C7: with limit 10 and page 2 on 25 records, the returned
page is exactly the 11th through 20th records, total is 25 and totalPages
is 3. -/
theorem listItemsPagination_witness :
    (listItems dbPagination 2 10).items
      = ((dbPagination.items.drop ((2 - 1) * 10)).take 10).map itemSelect ∧
    (listItems dbPagination 2 10).total = 25 ∧
    (listItems dbPagination 2 10).totalPages = 3 ∧
    (listItems dbPagination 2 10).items.map (fun s => s.id)
      = [11, 12, 13, 14, 15, 16, 17, 18, 19, 20] :=
  ⟨(listItemsPagination dbPagination 2 10 (by decide) (by decide)).1,
   by decide, by decide, by decide⟩

end ECom
